import Mathlib

/-!
Verification of the capalloc capital-allocation engine.

The development shallowly embeds, over the rationals:
  * the thirteen metric formulas of
    `src/repository/formula_repository.rs` (the formcalc DSL text is
    transcribed formula by formula; the engine's `rnd` is
    round-half-away-from-zero, its `exp(0.5)` constant is abstracted as a
    parameter `e05` since its value is transcendental and it is only used
    in the `cof_total > 1000000` branch of `baseline_risk`);
  * the per-record evaluator `RiskCalculationService::calculate` of
    `src/services/risk_calculator.rs`;
  * the batch runner `CapitalAllocationApp::calculate_all_risks` of
    `src/application/mod.rs` (rayon's `par_iter().filter_map(..).collect()`,
    whose documented semantics is an order-preserving filterMap; the
    per-record evaluator is abstracted as an `Option`-valued function since
    the Rust evaluator is fallible);
  * the three portfolio-selector variants of `src/services/optimizer.rs`
    (`optimize`, `optimize_by_priority`, `optimize_combined`), which build a
    continuous LP relaxation with variables bounded in [0,1], a budget
    constraint and per-asset group constraints, hand it to the external
    minilp solver, and threshold the returned fractional values at 0.5.
    The solver is abstracted as a function `solve : LP → Except String
    (List ℚ)`; theorems that need solver guarantees take the documented
    minilp behaviour as hypotheses (a returned solution is feasible /
    optimal; a feasible bounded problem is solved successfully).
-/

namespace Capalloc

/-- Round-half-away-from-zero to `n` decimal places, the semantics of the
formula engine's `rnd(x, n)`. -/
def rnd (n : ℕ) (x : ℚ) : ℚ :=
  if 0 ≤ x then (⌊x * 10 ^ n + 1 / 2⌋ : ℚ) / 10 ^ n
  else -((⌊(-x) * 10 ^ n + 1 / 2⌋ : ℚ) / 10 ^ n)

/-- Domain model `Asset` of `src/domain/mod.rs`: one capital-investment
alternative.  Monetary and probability fields are embedded as rationals. -/
structure Asset where
  asset_id : String
  alternative_id : String
  cost_usd : ℚ
  pof_post_action : ℚ
  cof_total_usd : ℚ
  safety_risk_level : String
deriving DecidableEq, Repr

/-- `Asset::is_high_risk` of `src/domain/mod.rs`. -/
def Asset.is_high_risk (a : Asset) : Bool :=
  a.safety_risk_level == "High" || a.safety_risk_level == "Critical"

/-- `Asset::is_critical` of `src/domain/mod.rs`. -/
def Asset.is_critical (a : Asset) : Bool :=
  a.safety_risk_level == "Critical"

/-- Formula `baseline_risk` of `src/repository/formula_repository.rs`:
`if cof_total > 1000000 then rnd(exp(0.5)*cof_total, 2) else
rnd(1.0*cof_total, 2)`.  `e05` is the engine's value of `exp(0.5)`. -/
def baseline_risk (e05 cof_total : ℚ) : ℚ :=
  if 1000000 < cof_total then rnd 2 (e05 * cof_total)
  else rnd 2 (1 * cof_total)

/-- Formula `safety_multiplier` of `src/repository/formula_repository.rs`. -/
def safety_multiplier (pof_post_action : ℚ) (is_critical is_high_risk : Bool) : ℚ :=
  if is_critical then 1.5 + pof_post_action * 0.2
  else if is_high_risk then 1.25 + max 0 (pof_post_action - 0.1) * 0.15
  else 1.0

/-- Formula `criticality_score` of `src/repository/formula_repository.rs`. -/
def criticality_score (pof_post_action cof_total : ℚ) (is_critical is_high_risk : Bool) : ℚ :=
  if is_critical then rnd 2 (((pof_post_action * 10) + (cof_total / 500000)) * 1.5)
  else if is_high_risk then rnd 2 (((pof_post_action * 10) + (cof_total / 500000)) * 1.25)
  else rnd 2 ((pof_post_action * 10) + (cof_total / 500000))

/-- Formula `degradation_factor` of `src/repository/formula_repository.rs`:
`rnd(1.0 - min(pof_post_action * 2, 0.95), 4)`. -/
def degradation_factor (pof_post_action : ℚ) : ℚ :=
  rnd 4 (1.0 - min (pof_post_action * 2) 0.95)

/-- Formula `post_action_risk` of `src/repository/formula_repository.rs`:
`rnd(pof * cof * safety_multiplier * max(degradation_factor, 0.5), 2)`,
taking the two upstream node outputs as arguments. -/
def post_action_risk (pof_post_action cof_total sm df : ℚ) : ℚ :=
  rnd 2 (pof_post_action * cof_total * sm * max df 0.5)

/-- Formula `risk_reduction` of `src/repository/formula_repository.rs`:
`rnd(max(baseline_risk - post_action_risk, 0), 2)`. -/
def risk_reduction (br par : ℚ) : ℚ :=
  rnd 2 (max (br - par) 0)

/-- Formula `implementation_complexity` of
`src/repository/formula_repository.rs`. -/
def implementation_complexity (cost : ℚ) (is_critical is_high_risk : Bool) : ℚ :=
  if is_critical then rnd 2 (min ((cost / 100000) * 2.0) 10)
  else if is_high_risk then rnd 2 (min ((cost / 100000) * 1.5) 10)
  else rnd 2 (min (cost / 100000) 10)

/-- Formula `time_value_adjustment` of
`src/repository/formula_repository.rs`:
`rnd(1.0 / (1.0 + 0.006666667) ^ ceil(implementation_complexity * 2), 4)`. -/
def time_value_adjustment (ic : ℚ) : ℚ :=
  rnd 4 (1.0 / (1.0 + 0.006666667) ^ (⌈ic * 2⌉ : ℤ))

/-- Formula `adjusted_cost` of `src/repository/formula_repository.rs`. -/
def adjusted_cost (cost ic tva : ℚ) : ℚ :=
  rnd 2 (cost * (1 + ic * 0.05) * tva)

/-- Formula `roi` of `src/repository/formula_repository.rs`. -/
def roi (rr ac : ℚ) : ℚ :=
  if 0 < ac then rnd 4 (rr / ac) else 999.9999

/-- Formula `cost_effectiveness` of `src/repository/formula_repository.rs`. -/
def cost_effectiveness (r cs : ℚ) : ℚ :=
  rnd 2 (min ((min r 20) * 3.5 + (min cs 10) * 3) 100)

/-- Formula `priority_score` of `src/repository/formula_repository.rs`. -/
def priority_score (rr r cs : ℚ) (is_critical : Bool) : ℚ :=
  if is_critical then
    rnd 4 (((rr / 1000000) * 0.4 + (min r 10 / 10) * 0.35 + (cs / 10) * 0.25) * 1.3)
  else
    rnd 4 ((rr / 1000000) * 0.4 + (min r 10 / 10) * 0.35 + (cs / 10) * 0.25)

/-- Formula `payback_period` of `src/repository/formula_repository.rs`. -/
def payback_period (ac rr : ℚ) : ℚ :=
  if 0 < rr then rnd 1 ((ac / rr) * 12) else 999.9

/-- Domain value object `OptimizationResult` of `src/domain/mod.rs` (the
evaluated-result record), without the diagnostic `calculation_time_ms`
field, which records wall-clock time and feeds no downstream logic. -/
structure OptimizationResult where
  asset : Asset
  baseline_risk : ℚ
  post_action_risk : ℚ
  risk_reduction : ℚ
  roi : ℚ
  criticality_score : ℚ
  priority_score : ℚ
  cost_effectiveness : ℚ
  payback_period : ℚ
deriving DecidableEq, Repr

/-- The per-record evaluator `RiskCalculationService::calculate` of
`src/services/risk_calculator.rs`: bind the raw attributes, evaluate the
thirteen formulas in the dependency order in which
`InMemoryFormulaRepository::load_all` lists them, and assemble the
evaluated-result record.  `e05` abstracts the engine's `exp(0.5)`. -/
def calculate (e05 : ℚ) (a : Asset) : OptimizationResult :=
  let br := baseline_risk e05 a.cof_total_usd
  let sm := safety_multiplier a.pof_post_action a.is_critical a.is_high_risk
  let cs := criticality_score a.pof_post_action a.cof_total_usd a.is_critical a.is_high_risk
  let df := degradation_factor a.pof_post_action
  let par := post_action_risk a.pof_post_action a.cof_total_usd sm df
  let rr := risk_reduction br par
  let ic := implementation_complexity a.cost_usd a.is_critical a.is_high_risk
  let tva := time_value_adjustment ic
  let ac := adjusted_cost a.cost_usd ic tva
  let r := roi rr ac
  let ce := cost_effectiveness r cs
  let ps := priority_score rr r cs a.is_critical
  let pp := payback_period ac rr
  { asset := a, baseline_risk := br, post_action_risk := par,
    risk_reduction := rr, roi := r, criticality_score := cs,
    priority_score := ps, cost_effectiveness := ce, payback_period := pp }

/-- The batch runner `CapitalAllocationApp::calculate_all_risks` of
`src/application/mod.rs`: `assets.par_iter().filter_map(|a|
calculate(a).ok()).collect()`.  Rayon's `collect` is documented to produce
the results in the order of the source sequence, so the parallel pipeline
denotes an order-preserving `filterMap`; the fallible per-record evaluator
is abstracted as an `Option`-valued function. -/
def calculate_all_risks (f : Asset → Option OptimizationResult)
    (assets : List Asset) : List OptimizationResult :=
  assets.filterMap f

/-- Result structure `OptimizationSolution` of `src/services/optimizer.rs`. -/
structure OptimizationSolution where
  selected_alternatives : List String
  total_cost : ℚ
  total_risk_reduction : ℚ
  total_priority_score : ℚ
  num_assets_optimized : ℕ
deriving DecidableEq, Repr

/-- The linear program each selector variant hands to the minilp solver:
one variable per evaluated result, objective coefficients, the variable's
cost coefficient, the variable's asset group, and the budget.  Variables
are bounded in [0,1] (the code's `add_var(coeff, (0.0, 1.0))`). -/
structure LP where
  objective : List ℚ
  costs : List ℚ
  groups : List String
  budget : ℚ

/-- Dot product of two coefficient lists (pairwise product, summed). -/
def dot (a b : List ℚ) : ℚ :=
  ((a.zip b).map fun p => p.1 * p.2).sum

/-- Total fractional weight assigned by `x` to the variables of asset
group `g` (the left-hand side of the code's per-asset SOS1 constraint). -/
def LP.groupTotal (lp : LP) (x : List ℚ) (g : String) : ℚ :=
  (((lp.groups.zip x).filter fun p => p.1 == g).map fun p => p.2).sum

/-- Feasibility of an assignment for the LP the optimizer builds: one
value per variable, each within the [0,1] bounds, total cost within
budget, and at most unit weight per asset group. -/
def LP.feasible (lp : LP) (x : List ℚ) : Prop :=
  x.length = lp.costs.length ∧
  (∀ v ∈ x, 0 ≤ v ∧ v ≤ 1) ∧
  dot lp.costs x ≤ lp.budget ∧
  ∀ g : String, lp.groupTotal x g ≤ 1

/-- Optimality for the maximization LP: feasible, and no feasible
assignment attains a larger objective value. -/
def LP.optimal (lp : LP) (x : List ℚ) : Prop :=
  lp.feasible x ∧ ∀ y, lp.feasible y → dot lp.objective y ≤ dot lp.objective x

/-- The LP built by each selector variant of `src/services/optimizer.rs`
(lines 40–72 and their clones): objective coefficient `coeff` per result,
cost `cost_usd`, group `asset_id`, budget. -/
def buildLP (results : List OptimizationResult) (budget : ℚ)
    (coeff : OptimizationResult → ℚ) : LP :=
  { objective := results.map coeff,
    costs := results.map fun r => r.asset.cost_usd,
    groups := results.map fun r => r.asset.asset_id,
    budget := budget }

/-- Display string for a selected alternative, the code's
`format!("{} ({})", asset_id, alternative_id)`. -/
def fmtSelected (r : OptimizationResult) : String :=
  r.asset.asset_id ++ " (" ++ r.asset.alternative_id ++ ")"

/-- One step of the extraction loop of `src/services/optimizer.rs`
(lines 83–94): a variable whose solver value exceeds 0.5 is selected, its
display string appended and its cost, risk reduction and priority score
accumulated. -/
def selectStep (acc : List String × ℚ × ℚ × ℚ) (p : OptimizationResult × ℚ) :
    List String × ℚ × ℚ × ℚ :=
  if 0.5 < p.2 then
    (acc.1 ++ [fmtSelected p.1],
     acc.2.1 + p.1.asset.cost_usd,
     acc.2.2.1 + p.1.risk_reduction,
     acc.2.2.2 + p.1.priority_score)
  else acc

/-- The extraction phase shared by the three selector variants: fold the
selection loop over the variables and package the accumulated totals,
`num_assets_optimized` being the length of the selected list. -/
def extract (results : List OptimizationResult) (x : List ℚ) :
    OptimizationSolution :=
  let acc := (results.zip x).foldl selectStep ([], 0, 0, 0)
  { selected_alternatives := acc.1,
    total_cost := acc.2.1,
    total_risk_reduction := acc.2.2.1,
    total_priority_score := acc.2.2.2,
    num_assets_optimized := acc.1.length }

/-- The pairs (result, solver value) the extraction loop selects: those
with fractional value strictly above 0.5. -/
def selectedPairs (results : List OptimizationResult) (x : List ℚ) :
    List (OptimizationResult × ℚ) :=
  (results.zip x).filter fun p => decide ((0.5 : ℚ) < p.2)

/-- `PortfolioOptimizer::optimize` of `src/services/optimizer.rs`
(risk-reduction objective): error on empty input, otherwise build the LP,
run the solver (abstracted as `solve`, modelling the external minilp
crate), and extract the thresholded selection. -/
def PortfolioOptimizer.optimize (solve : LP → Except String (List ℚ))
    (results : List OptimizationResult) (budget : ℚ) :
    Except String OptimizationSolution :=
  if results.isEmpty then Except.error "No alternatives to optimize"
  else (solve (buildLP results budget fun r => r.risk_reduction)).map (extract results)

/-- `PortfolioOptimizer::optimize_by_priority` of
`src/services/optimizer.rs` (priority-score objective). -/
def PortfolioOptimizer.optimize_by_priority (solve : LP → Except String (List ℚ))
    (results : List OptimizationResult) (budget : ℚ) :
    Except String OptimizationSolution :=
  if results.isEmpty then Except.error "No alternatives to optimize"
  else (solve (buildLP results budget fun r => r.priority_score)).map (extract results)

/-- `PortfolioOptimizer::optimize_combined` of `src/services/optimizer.rs`
(weighted objective `risk_weight * risk_reduction / 1000000 +
priority_weight * priority_score`). -/
def PortfolioOptimizer.optimize_combined (solve : LP → Except String (List ℚ))
    (results : List OptimizationResult) (budget risk_weight priority_weight : ℚ) :
    Except String OptimizationSolution :=
  if results.isEmpty then Except.error "No alternatives to optimize"
  else (solve (buildLP results budget fun r =>
    risk_weight * (r.risk_reduction / 1000000) + priority_weight * r.priority_score)).map
    (extract results)

/-- Rational approximation standing in for the engine's `exp(0.5)`
constant (only the `cof_total > 1000000` branch of `baseline_risk` reads
it, and no theorem below depends on its exact value). -/
def e05val : ℚ := 1.6487212707001282

/-- Scenario record of spec §8: `PUMP_001 / Refurbish`, cost 45000,
probability 0.05, consequence 500000, risk level Low. -/
def pumpAsset : Asset :=
  { asset_id := "PUMP_001", alternative_id := "Refurbish", cost_usd := 45000,
    pof_post_action := 0.05, cof_total_usd := 500000, safety_risk_level := "Low" }

/-- First record of the monotonicity counterexample: probability 0.25. -/
def monoAsset1 : Asset :=
  { asset_id := "ASSET_A", alternative_id := "Alt_1", cost_usd := 45000,
    pof_post_action := 0.25, cof_total_usd := 1000000, safety_risk_level := "Low" }

/-- Second record of the monotonicity counterexample: identical except for
a lower probability 0.24997. -/
def monoAsset2 : Asset :=
  { asset_id := "ASSET_A", alternative_id := "Alt_1", cost_usd := 45000,
    pof_post_action := 0.24997, cof_total_usd := 1000000, safety_risk_level := "Low" }

/-- Critical record with probability 0 for the strictness counterexample. -/
def critZeroAsset : Asset :=
  { asset_id := "ASSET_B", alternative_id := "Alt_1", cost_usd := 45000,
    pof_post_action := 0, cof_total_usd := 500000, safety_risk_level := "Critical" }

/-- Low-risk record with probability 0, otherwise identical to
`critZeroAsset`. -/
def lowZeroAsset : Asset :=
  { asset_id := "ASSET_B", alternative_id := "Alt_1", cost_usd := 45000,
    pof_post_action := 0, cof_total_usd := 500000, safety_risk_level := "Low" }

/-- Evaluated result used in the budget-violation instance: a single
alternative costing 10 with risk reduction 100. -/
def cxResult : OptimizationResult :=
  { asset := { asset_id := "ASSET_C", alternative_id := "Alt_1", cost_usd := 10,
               pof_post_action := 0.05, cof_total_usd := 1000, safety_risk_level := "Low" },
    baseline_risk := 1000, post_action_risk := 50, risk_reduction := 100,
    roi := 10, criticality_score := 1, priority_score := 0.5,
    cost_effectiveness := 38, payback_period := 1.2 }

/-- The LP the risk-reduction selector builds for `[cxResult]` at
budget 6. -/
def lpC1 : LP := buildLP [cxResult] 6 fun r => r.risk_reduction

/-- Evaluated result used by the witnesses of the selector theorems. -/
def demoResult : OptimizationResult :=
  { asset := { asset_id := "ASSET_D", alternative_id := "Alt_1", cost_usd := 10,
               pof_post_action := 0.05, cof_total_usd := 1000, safety_risk_level := "Low" },
    baseline_risk := 1000, post_action_risk := 50, risk_reduction := 950,
    roi := 95, criticality_score := 1, priority_score := 0.5,
    cost_effectiveness := 38, payback_period := 0.1 }

/-- Trivial stand-in solver that answers the all-zero assignment; it
satisfies the completeness hypothesis of the success theorem. -/
def solveTriv (lp : LP) : Except String (List ℚ) :=
  Except.ok (List.replicate lp.costs.length 0)

/-- Stand-in solver that answers the all-zero assignment whenever the
budget is non-negative; it satisfies the feasibility hypothesis of the
exclusivity theorem. -/
def solveZeroIf (lp : LP) : Except String (List ℚ) :=
  if 0 ≤ lp.budget then Except.ok (List.replicate lp.costs.length 0)
  else Except.error "infeasible"

/-- Outcome the stand-in solvers produce on the singleton demo batch. -/
def demoSolution : OptimizationSolution := extract [demoResult] [0]

theorem rnd_nonneg (n : ℕ) {x : ℚ} (hx : 0 ≤ x) : 0 ≤ rnd n x := by
  unfold rnd
  rw [if_pos hx]
  have h : (0 : ℤ) ≤ ⌊x * 10 ^ n + 1 / 2⌋ := Int.floor_nonneg.mpr (by positivity)
  have h2 : (0 : ℚ) ≤ (⌊x * 10 ^ n + 1 / 2⌋ : ℚ) := by exact_mod_cast h
  positivity

theorem rnd_mono (n : ℕ) {x y : ℚ} (h : x ≤ y) : rnd n x ≤ rnd n y := by
  unfold rnd
  have hm : (0 : ℚ) < 10 ^ n := by positivity
  rcases le_or_lt 0 x with hx | hx
  · rw [if_pos hx, if_pos (hx.trans h)]
    have h1 : ⌊x * 10 ^ n + 1 / 2⌋ ≤ ⌊y * 10 ^ n + 1 / 2⌋ :=
      Int.floor_le_floor (by nlinarith)
    exact div_le_div_of_nonneg_right (by exact_mod_cast h1) hm.le
  · rcases le_or_lt 0 y with hy | hy
    · rw [if_neg (not_le.mpr hx), if_pos hy]
      have h1 : (0 : ℤ) ≤ ⌊-x * 10 ^ n + 1 / 2⌋ := Int.floor_nonneg.mpr (by nlinarith)
      have h2 : (0 : ℤ) ≤ ⌊y * 10 ^ n + 1 / 2⌋ := Int.floor_nonneg.mpr (by nlinarith)
      have h1q : (0 : ℚ) ≤ (⌊-x * 10 ^ n + 1 / 2⌋ : ℚ) := by exact_mod_cast h1
      have h2q : (0 : ℚ) ≤ (⌊y * 10 ^ n + 1 / 2⌋ : ℚ) := by exact_mod_cast h2
      have := div_nonneg h1q hm.le
      have := div_nonneg h2q hm.le
      linarith
    · rw [if_neg (not_le.mpr hx), if_neg (not_le.mpr hy)]
      have h1 : ⌊-y * 10 ^ n + 1 / 2⌋ ≤ ⌊-x * 10 ^ n + 1 / 2⌋ :=
        Int.floor_le_floor (by nlinarith)
      have := div_le_div_of_nonneg_right (show ((⌊-y * 10 ^ n + 1 / 2⌋ : ℚ)) ≤ (⌊-x * 10 ^ n + 1 / 2⌋ : ℚ) by exact_mod_cast h1) hm.le
      linarith

theorem rnd_shift_two {u : ℚ} (hu : 0 ≤ u) : rnd 2 (u + 1 / 100) = rnd 2 u + 1 / 100 := by
  unfold rnd
  rw [if_pos (by linarith), if_pos hu]
  have h : (u + 1 / 100) * 10 ^ 2 + 1 / 2 = (u * 10 ^ 2 + 1 / 2) + 1 := by ring
  rw [h, Int.floor_add_one]
  push_cast
  ring

theorem rnd_two_lt {u v : ℚ} (hu : 0 ≤ u) (h : u + 1 / 100 ≤ v) : rnd 2 u < rnd 2 v := by
  have h1 := rnd_mono 2 h
  have h2 := rnd_shift_two hu
  linarith

theorem calculate_baseline_risk (e05 : ℚ) (a : Asset) :
    (calculate e05 a).baseline_risk = baseline_risk e05 a.cof_total_usd := rfl

theorem calculate_post_action_risk (e05 : ℚ) (a : Asset) :
    (calculate e05 a).post_action_risk =
      post_action_risk a.pof_post_action a.cof_total_usd
        (safety_multiplier a.pof_post_action a.is_critical a.is_high_risk)
        (degradation_factor a.pof_post_action) := rfl

theorem calculate_risk_reduction (e05 : ℚ) (a : Asset) :
    (calculate e05 a).risk_reduction =
      risk_reduction (baseline_risk e05 a.cof_total_usd)
        ((calculate e05 a).post_action_risk) := rfl

theorem calculate_roi_eq (e05 : ℚ) (a : Asset) :
    (calculate e05 a).roi =
      roi ((calculate e05 a).risk_reduction)
        (adjusted_cost a.cost_usd
          (implementation_complexity a.cost_usd a.is_critical a.is_high_risk)
          (time_value_adjustment
            (implementation_complexity a.cost_usd a.is_critical a.is_high_risk))) := rfl

theorem pm_mono {p1 p2 : ℚ} (h0 : 0 ≤ p2) (h21 : p2 ≤ p1) :
    p2 * max (1 - min (p2 * 2) 0.95) 0.5 ≤ p1 * max (1 - min (p1 * 2) 0.95) 0.5 := by
  have hq1 : (0.5 : ℚ) ≤ max (1 - min (p1 * 2) 0.95) 0.5 := le_max_right _ _
  rcases le_or_lt p1 (1 / 4) with hA | hA
  · have e2 : max (1 - min (p2 * 2) 0.95) 0.5 = 1 - p2 * 2 := by
      rw [min_eq_left (by nlinarith), max_eq_left (by nlinarith)]
    have e1 : max (1 - min (p1 * 2) 0.95) 0.5 = 1 - p1 * 2 := by
      rw [min_eq_left (by nlinarith), max_eq_left (by nlinarith)]
    rw [e1, e2]
    nlinarith [mul_nonneg (sub_nonneg.mpr h21) (show (0 : ℚ) ≤ 1 - 2 * (p1 + p2) by nlinarith)]
  · rcases le_or_lt p2 (1 / 4) with hB | hB
    · have e2 : max (1 - min (p2 * 2) 0.95) 0.5 = 1 - p2 * 2 := by
        rw [min_eq_left (by nlinarith), max_eq_left (by nlinarith)]
      rw [e2]
      have h18 : p2 * (1 - p2 * 2) ≤ 1 / 8 := by nlinarith [sq_nonneg (1 - p2 * 4)]
      have hp1 : (0 : ℚ) ≤ p1 := le_trans h0 h21
      have := mul_le_mul_of_nonneg_left hq1 hp1
      nlinarith
    · have e2 : max (1 - min (p2 * 2) 0.95) 0.5 = 0.5 := by
        apply max_eq_right
        rcases le_total (p2 * 2) 0.95 with hm | hm
        · rw [min_eq_left hm]; nlinarith
        · rw [min_eq_right hm]; norm_num
      have e1 : max (1 - min (p1 * 2) 0.95) 0.5 = 0.5 := by
        apply max_eq_right
        rcases le_total (p1 * 2) 0.95 with hm | hm
        · rw [min_eq_left hm]; nlinarith
        · rw [min_eq_right hm]; norm_num
      rw [e1, e2]
      nlinarith

theorem safety_multiplier_nonneg {p : ℚ} (c h : Bool) (hp : 0 ≤ p) :
    0 ≤ safety_multiplier p c h := by
  unfold safety_multiplier
  have h1 : (0 : ℚ) ≤ max 0 (p - 0.1) := le_max_left _ _
  cases c <;> cases h <;> simp <;> nlinarith

theorem safety_multiplier_mono {p1 p2 : ℚ} (c h : Bool) (h21 : p2 ≤ p1) :
    safety_multiplier p2 c h ≤ safety_multiplier p1 c h := by
  unfold safety_multiplier
  have h1 : max 0 (p2 - 0.1) ≤ max 0 (p1 - 0.1) := max_le_max le_rfl (by linarith)
  have h2 : (0 : ℚ) ≤ max 0 (p2 - 0.1) := le_max_left _ _
  cases c <;> cases h <;> simp <;> nlinarith

/-- Critical counterpart of the spec §8 pump scenario record: identical to
`pumpAsset` except for safety risk level Critical. -/
def critPumpAsset : Asset :=
  { asset_id := "PUMP_001", alternative_id := "Refurbish", cost_usd := 45000,
    pof_post_action := 0.05, cof_total_usd := 500000, safety_risk_level := "Critical" }

/-- C3: for every alternative record, the evaluated `risk_reduction` equals
`max(baseline_risk - post_action_risk, 0)` rounded half-away-from-zero to
two decimal places, where `baseline_risk` and `post_action_risk` are the
values the same evaluation computed. -/
theorem risk_reduction_matches_formula (e05 : ℚ) (a : Asset) :
    (calculate e05 a).risk_reduction =
      rnd 2 (max ((calculate e05 a).baseline_risk - (calculate e05 a).post_action_risk) 0) := rfl

/-- C5 counterexample: two records identical except that the second has the
lower probability (0.24997 versus 0.25, both in [0,1]), yet the second has
the strictly larger evaluated `post_action_risk` and the strictly smaller
evaluated `risk_reduction` — the 4-decimal rounding of
`degradation_factor` breaks the claimed monotonicity. -/
theorem post_action_risk_not_monotone_counterexample :
    monoAsset2.pof_post_action < monoAsset1.pof_post_action ∧
    (0 : ℚ) ≤ monoAsset2.pof_post_action ∧
    monoAsset1.pof_post_action ≤ 1 ∧
    monoAsset2.asset_id = monoAsset1.asset_id ∧
    monoAsset2.alternative_id = monoAsset1.alternative_id ∧
    monoAsset2.cost_usd = monoAsset1.cost_usd ∧
    monoAsset2.cof_total_usd = monoAsset1.cof_total_usd ∧
    monoAsset2.safety_risk_level = monoAsset1.safety_risk_level ∧
    (calculate e05val monoAsset1).post_action_risk <
      (calculate e05val monoAsset2).post_action_risk ∧
    (calculate e05val monoAsset2).risk_reduction <
      (calculate e05val monoAsset1).risk_reduction := by
  refine ⟨by norm_num [monoAsset1, monoAsset2], by norm_num [monoAsset2],
    by norm_num [monoAsset1], rfl, rfl, rfl, rfl, rfl, ?_, ?_⟩
  · rw [calculate_post_action_risk, calculate_post_action_risk]
    norm_num [monoAsset1, monoAsset2, post_action_risk, safety_multiplier,
      degradation_factor, Asset.is_critical, Asset.is_high_risk, rnd,
      show ("Low" : String) ≠ "Critical" from by decide,
      show ("Low" : String) ≠ "High" from by decide]
  · rw [calculate_risk_reduction, calculate_risk_reduction,
      calculate_post_action_risk, calculate_post_action_risk]
    norm_num [monoAsset1, monoAsset2, post_action_risk, risk_reduction,
      baseline_risk, safety_multiplier, degradation_factor,
      Asset.is_critical, Asset.is_high_risk, rnd,
      show ("Low" : String) ≠ "Critical" from by decide,
      show ("Low" : String) ≠ "High" from by decide]

/-- C5 (amended): with the degradation factor taken unrounded (the exact
`1 - min(2*pof, 0.95)` instead of its 4-decimal rounding), decreasing the
probability while holding the other attributes fixed never increases
`post_action_risk` and never decreases `risk_reduction`, for any safety
classification and any non-negative consequence. -/
theorem post_action_risk_monotone_unrounded_df (e05 cof p1 p2 : ℚ) (ic ihr : Bool)
    (hcof : 0 ≤ cof) (h0 : 0 ≤ p2) (h21 : p2 ≤ p1) (_h1 : p1 ≤ 1) :
    post_action_risk p2 cof (safety_multiplier p2 ic ihr) (1 - min (p2 * 2) 0.95) ≤
      post_action_risk p1 cof (safety_multiplier p1 ic ihr) (1 - min (p1 * 2) 0.95) ∧
    risk_reduction (baseline_risk e05 cof)
        (post_action_risk p1 cof (safety_multiplier p1 ic ihr) (1 - min (p1 * 2) 0.95)) ≤
      risk_reduction (baseline_risk e05 cof)
        (post_action_risk p2 cof (safety_multiplier p2 ic ihr) (1 - min (p2 * 2) 0.95)) := by
  have hpm := pm_mono h0 h21
  have hsm := safety_multiplier_mono ic ihr h21
  have hsm2 := safety_multiplier_nonneg ic ihr h0
  have hq1nn : (0 : ℚ) ≤ p1 * max (1 - min (p1 * 2) 0.95) 0.5 :=
    mul_nonneg (h0.trans h21) (le_trans (by norm_num) (le_max_right _ _))
  have hkey : p2 * cof * safety_multiplier p2 ic ihr * max (1 - min (p2 * 2) 0.95) 0.5 ≤
      p1 * cof * safety_multiplier p1 ic ihr * max (1 - min (p1 * 2) 0.95) 0.5 := by
    calc p2 * cof * safety_multiplier p2 ic ihr * max (1 - min (p2 * 2) 0.95) 0.5
        = cof * (p2 * max (1 - min (p2 * 2) 0.95) 0.5 * safety_multiplier p2 ic ihr) := by ring
      _ ≤ cof * (p1 * max (1 - min (p1 * 2) 0.95) 0.5 * safety_multiplier p1 ic ihr) :=
          mul_le_mul_of_nonneg_left (mul_le_mul hpm hsm hsm2 hq1nn) hcof
      _ = p1 * cof * safety_multiplier p1 ic ihr * max (1 - min (p1 * 2) 0.95) 0.5 := by ring
  have hpost : post_action_risk p2 cof (safety_multiplier p2 ic ihr) (1 - min (p2 * 2) 0.95) ≤
      post_action_risk p1 cof (safety_multiplier p1 ic ihr) (1 - min (p1 * 2) 0.95) := by
    simp only [post_action_risk]
    exact rnd_mono 2 hkey
  refine ⟨hpost, ?_⟩
  simp only [risk_reduction]
  exact rnd_mono 2 (max_le_max (sub_le_sub_left hpost _) le_rfl)

/-- Witness for the amended C5 theorem at probability pair (0.25, 0.2),
consequence 1000000, non-critical non-high-risk classification. -/
theorem post_action_risk_monotone_unrounded_df_witness :
    (0 : ℚ) ≤ 1000000 ∧ (0 : ℚ) ≤ 1 / 5 ∧ (1 / 5 : ℚ) ≤ 1 / 4 ∧ (1 / 4 : ℚ) ≤ 1 ∧
    (post_action_risk (1 / 5) 1000000 (safety_multiplier (1 / 5) false false)
        (1 - min (1 / 5 * 2) 0.95) ≤
      post_action_risk (1 / 4) 1000000 (safety_multiplier (1 / 4) false false)
        (1 - min (1 / 4 * 2) 0.95) ∧
    risk_reduction (baseline_risk e05val 1000000)
        (post_action_risk (1 / 4) 1000000 (safety_multiplier (1 / 4) false false)
          (1 - min (1 / 4 * 2) 0.95)) ≤
      risk_reduction (baseline_risk e05val 1000000)
        (post_action_risk (1 / 5) 1000000 (safety_multiplier (1 / 5) false false)
          (1 - min (1 / 5 * 2) 0.95))) :=
  ⟨by norm_num, by norm_num, by norm_num, by norm_num,
    post_action_risk_monotone_unrounded_df e05val 1000000 (1 / 4) (1 / 5) false false
      (by norm_num) (by norm_num) (by norm_num) (by norm_num)⟩

/-- C6 counterexample: at probability 0 an otherwise-identical Critical
record and Low record have equal (zero) `post_action_risk`, so the claimed
strict inequality fails. -/
theorem critical_not_strictly_greater_counterexample :
    critZeroAsset.safety_risk_level = "Critical" ∧
    lowZeroAsset.is_high_risk = false ∧
    lowZeroAsset.cost_usd = critZeroAsset.cost_usd ∧
    lowZeroAsset.pof_post_action = critZeroAsset.pof_post_action ∧
    lowZeroAsset.cof_total_usd = critZeroAsset.cof_total_usd ∧
    ¬ ((calculate e05val lowZeroAsset).post_action_risk <
        (calculate e05val critZeroAsset).post_action_risk) := by
  refine ⟨rfl, by decide, rfl, rfl, rfl, ?_⟩
  rw [calculate_post_action_risk, calculate_post_action_risk]
  norm_num [critZeroAsset, lowZeroAsset, post_action_risk, safety_multiplier,
    degradation_factor, Asset.is_critical, Asset.is_high_risk, rnd,
    show ("Low" : String) ≠ "Critical" from by decide,
    show ("Low" : String) ≠ "High" from by decide]

/-- C6 (amended): an otherwise-identical Critical record never has smaller
evaluated `post_action_risk` than a non-critical, non-high-risk record,
and the inequality is strict whenever the exact (unrounded) risk gap
`pof * cof * max(degradation_factor, 0.5) * (0.5 + 0.2 * pof)` reaches one
rounding unit (0.01). -/
theorem critical_post_action_risk_ge (e05 : ℚ) (a b : Asset)
    (ha : a.safety_risk_level = "Critical")
    (hb : b.is_high_risk = false)
    (hpof : b.pof_post_action = a.pof_post_action)
    (hcof : b.cof_total_usd = a.cof_total_usd)
    (hp0 : 0 ≤ a.pof_post_action) (hc0 : 0 ≤ a.cof_total_usd) :
    (calculate e05 b).post_action_risk ≤ (calculate e05 a).post_action_risk ∧
    (1 / 100 ≤ a.pof_post_action * a.cof_total_usd *
        max (degradation_factor a.pof_post_action) 0.5 *
        (0.5 + a.pof_post_action * 0.2) →
      (calculate e05 b).post_action_risk < (calculate e05 a).post_action_risk) := by
  have hac : a.is_critical = true := by simp [Asset.is_critical, ha]
  have hbools : ¬ b.safety_risk_level = "High" ∧ ¬ b.safety_risk_level = "Critical" := by
    simpa [Asset.is_high_risk] using hb
  have hbc : b.is_critical = false := by simp [Asset.is_critical, hbools.2]
  rw [calculate_post_action_risk, calculate_post_action_risk, hpof, hcof, hac, hbc, hb]
  simp only [safety_multiplier, if_true, if_false, Bool.false_eq_true, ite_false, ite_true]
  have hq : (0 : ℚ) ≤ max (degradation_factor a.pof_post_action) 0.5 :=
    le_trans (by norm_num) (le_max_right _ _)
  have hbase : (0 : ℚ) ≤ a.pof_post_action * a.cof_total_usd * 1.0 *
      max (degradation_factor a.pof_post_action) 0.5 := by
    have := mul_nonneg (mul_nonneg hp0 hc0) hq
    nlinarith
  constructor
  · simp only [post_action_risk]
    apply rnd_mono
    nlinarith [mul_nonneg (mul_nonneg (mul_nonneg hp0 hc0) hq) (show (0 : ℚ) ≤ 0.5 + a.pof_post_action * 0.2 by nlinarith)]
  · intro hgap
    simp only [post_action_risk]
    apply rnd_two_lt hbase
    nlinarith [hgap]

/-- Witness for the amended C6 theorem: the pump scenario record against
its Critical counterpart, with the strict conclusion fired. -/
theorem critical_post_action_risk_ge_witness :
    critPumpAsset.safety_risk_level = "Critical" ∧
    pumpAsset.is_high_risk = false ∧
    pumpAsset.pof_post_action = critPumpAsset.pof_post_action ∧
    pumpAsset.cof_total_usd = critPumpAsset.cof_total_usd ∧
    (0 : ℚ) ≤ critPumpAsset.pof_post_action ∧
    (0 : ℚ) ≤ critPumpAsset.cof_total_usd ∧
    (calculate e05val pumpAsset).post_action_risk <
      (calculate e05val critPumpAsset).post_action_risk :=
  ⟨rfl, by decide, rfl, rfl, by norm_num [critPumpAsset], by norm_num [critPumpAsset],
    (critical_post_action_risk_ge e05val critPumpAsset pumpAsset rfl (by decide) rfl rfl
        (by norm_num [critPumpAsset]) (by norm_num [critPumpAsset])).2
      (by norm_num [critPumpAsset, degradation_factor, rnd])⟩

/-- C8: evaluating the spec §8 pump scenario record yields baseline risk
500000.00, safety multiplier 1.0, positive risk reduction and positive
ROI, for any value of the engine's `exp(0.5)` constant (the record's
consequence does not reach the exponential branch). -/
theorem pump_scenario (e05 : ℚ) :
    (calculate e05 pumpAsset).baseline_risk = 500000 ∧
    safety_multiplier pumpAsset.pof_post_action pumpAsset.is_critical
      pumpAsset.is_high_risk = 1 ∧
    0 < (calculate e05 pumpAsset).risk_reduction ∧
    0 < (calculate e05 pumpAsset).roi := by
  have hsm : safety_multiplier pumpAsset.pof_post_action pumpAsset.is_critical
      pumpAsset.is_high_risk = 1 := by
    norm_num [pumpAsset, safety_multiplier, Asset.is_critical, Asset.is_high_risk,
      show ("Low" : String) ≠ "Critical" from by decide,
      show ("Low" : String) ≠ "High" from by decide]
  have hbr : (calculate e05 pumpAsset).baseline_risk = 500000 := by
    rw [calculate_baseline_risk]
    norm_num [pumpAsset, baseline_risk, rnd]
  have hrr : (calculate e05 pumpAsset).risk_reduction = 477500 := by
    rw [calculate_risk_reduction, calculate_post_action_risk]
    norm_num [pumpAsset, risk_reduction, baseline_risk, post_action_risk,
      safety_multiplier, degradation_factor, Asset.is_critical, Asset.is_high_risk, rnd,
      show ("Low" : String) ≠ "Critical" from by decide,
      show ("Low" : String) ≠ "High" from by decide]
  have hic : implementation_complexity pumpAsset.cost_usd pumpAsset.is_critical
      pumpAsset.is_high_risk = 9 / 20 := by
    norm_num [pumpAsset, implementation_complexity, Asset.is_critical,
      Asset.is_high_risk, rnd,
      show ("Low" : String) ≠ "Critical" from by decide,
      show ("Low" : String) ≠ "High" from by decide]
  have hceil : ⌈(9 / 20 : ℚ) * 2⌉ = (1 : ℤ) := by
    rw [Int.ceil_eq_iff]
    norm_num
  have htva : time_value_adjustment (9 / 20) = 4967 / 5000 := by
    simp only [time_value_adjustment, hceil]
    norm_num [rnd]
  refine ⟨hbr, hsm, by rw [hrr]; norm_num, ?_⟩
  rw [calculate_roi_eq, hrr, hic, htva]
  norm_num [pumpAsset, roi, adjusted_cost, rnd]

/-- C7: membership in the batch output is exactly successful evaluation of
some input record — a record whose evaluation fails contributes nothing
(it is dropped silently), every successful evaluation appears, and the
batch itself is a total function (it cannot fail as a whole, by type). -/
theorem calculate_all_risks_mem_iff (f : Asset → Option OptimizationResult)
    (assets : List Asset) (y : OptimizationResult) :
    y ∈ calculate_all_risks f assets ↔ ∃ a ∈ assets, f a = some y := by
  simp [calculate_all_risks, List.mem_filterMap]

/-- C10: the batch output lists the successful evaluations in input order —
wrapped in `some`, the output is a subsequence of the per-record
evaluation outcomes taken in input order. -/
theorem calculate_all_risks_preserves_order (f : Asset → Option OptimizationResult)
    (assets : List Asset) :
    ((calculate_all_risks f assets).map Option.some).Sublist (assets.map f) := by
  induction assets with
  | nil => simp [calculate_all_risks]
  | cons a t ih =>
    cases h : f a with
    | none =>
      simp only [calculate_all_risks, List.filterMap_cons, h, List.map_cons]
      exact List.Sublist.cons _ (by simpa [calculate_all_risks] using ih)
    | some y =>
      simp only [calculate_all_risks, List.filterMap_cons, h, List.map_cons]
      exact List.Sublist.cons₂ _ (by simpa [calculate_all_risks] using ih)

theorem foldl_selectStep (l : List (OptimizationResult × ℚ)) (s : List String) (c r p : ℚ) :
    l.foldl selectStep (s, c, r, p) =
      (s ++ ((l.filter fun q => decide ((0.5 : ℚ) < q.2)).map fun q => fmtSelected q.1),
       c + ((l.filter fun q => decide ((0.5 : ℚ) < q.2)).map fun q => q.1.asset.cost_usd).sum,
       r + ((l.filter fun q => decide ((0.5 : ℚ) < q.2)).map fun q => q.1.risk_reduction).sum,
       p + ((l.filter fun q => decide ((0.5 : ℚ) < q.2)).map fun q => q.1.priority_score).sum) := by
  induction l generalizing s c r p with
  | nil => simp
  | cons q t ih =>
    by_cases hq : (0.5 : ℚ) < q.2
    · simp [List.foldl_cons, selectStep, hq, ih, List.filter_cons, add_assoc]
    · simp [List.foldl_cons, selectStep, hq, ih, List.filter_cons]

theorem extract_fields (results : List OptimizationResult) (x : List ℚ) :
    (extract results x).selected_alternatives =
        ((selectedPairs results x).map fun q => fmtSelected q.1) ∧
    (extract results x).total_cost =
        ((selectedPairs results x).map fun q => q.1.asset.cost_usd).sum ∧
    (extract results x).total_risk_reduction =
        ((selectedPairs results x).map fun q => q.1.risk_reduction).sum ∧
    (extract results x).total_priority_score =
        ((selectedPairs results x).map fun q => q.1.priority_score).sum ∧
    (extract results x).num_assets_optimized =
        (extract results x).selected_alternatives.length := by
  simp only [extract, selectedPairs]
  rw [foldl_selectStep]
  simp

theorem variant_ok_inv {solve : LP → Except String (List ℚ)}
    {results : List OptimizationResult} {budget : ℚ} {s : OptimizationSolution}
    {coeff : OptimizationResult → ℚ}
    (h : (if results.isEmpty then
            (Except.error "No alternatives to optimize" : Except String OptimizationSolution)
          else (solve (buildLP results budget coeff)).map (extract results)) = Except.ok s) :
    ∃ x, solve (buildLP results budget coeff) = Except.ok x ∧ s = extract results x := by
  by_cases he : results.isEmpty
  · rw [if_pos he] at h
    cases h
  · rw [if_neg he] at h
    cases hsolve : solve (buildLP results budget coeff) with
    | error e => rw [hsolve] at h; simp [Except.map] at h
    | ok x =>
      rw [hsolve] at h
      simp only [Except.map] at h
      exact ⟨x, rfl, (Except.ok.inj h).symm⟩

/-- C9: every successful outcome of any of the three selector variants is
the extraction of the solver's assignment, and its aggregates are exactly
the selected count and the sums of cost, risk reduction and priority score
over exactly the selected alternatives. -/
theorem outcome_aggregates_consistent (solve : LP → Except String (List ℚ))
    (results : List OptimizationResult) (budget wr wp : ℚ) (s : OptimizationSolution)
    (h : PortfolioOptimizer.optimize solve results budget = Except.ok s ∨
         PortfolioOptimizer.optimize_by_priority solve results budget = Except.ok s ∨
         PortfolioOptimizer.optimize_combined solve results budget wr wp = Except.ok s) :
    ∃ x, s = extract results x ∧
      s.num_assets_optimized = s.selected_alternatives.length ∧
      s.selected_alternatives = ((selectedPairs results x).map fun q => fmtSelected q.1) ∧
      s.total_cost = ((selectedPairs results x).map fun q => q.1.asset.cost_usd).sum ∧
      s.total_risk_reduction =
        ((selectedPairs results x).map fun q => q.1.risk_reduction).sum ∧
      s.total_priority_score =
        ((selectedPairs results x).map fun q => q.1.priority_score).sum := by
  have hx : ∃ x, s = extract results x := by
    rcases h with h | h | h
    · obtain ⟨x, -, hs⟩ := variant_ok_inv h
      exact ⟨x, hs⟩
    · obtain ⟨x, -, hs⟩ := variant_ok_inv h
      exact ⟨x, hs⟩
    · obtain ⟨x, -, hs⟩ := variant_ok_inv h
      exact ⟨x, hs⟩
  obtain ⟨x, rfl⟩ := hx
  obtain ⟨h1, h2, h3, h4, h5⟩ := extract_fields results x
  exact ⟨x, rfl, h5, h1, h2, h3, h4⟩

/-- Witness for the aggregates theorem: the trivial solver on a singleton
batch at budget 5, risk-reduction variant. -/
theorem outcome_aggregates_consistent_witness :
    (PortfolioOptimizer.optimize solveTriv [demoResult] 5 = Except.ok demoSolution ∨
     PortfolioOptimizer.optimize_by_priority solveTriv [demoResult] 5 =
       Except.ok demoSolution ∨
     PortfolioOptimizer.optimize_combined solveTriv [demoResult] 5 (3 / 5) (2 / 5) =
       Except.ok demoSolution) ∧
    (∃ x, demoSolution = extract [demoResult] x ∧
      demoSolution.num_assets_optimized = demoSolution.selected_alternatives.length ∧
      demoSolution.selected_alternatives =
        ((selectedPairs [demoResult] x).map fun q => fmtSelected q.1) ∧
      demoSolution.total_cost =
        ((selectedPairs [demoResult] x).map fun q => q.1.asset.cost_usd).sum ∧
      demoSolution.total_risk_reduction =
        ((selectedPairs [demoResult] x).map fun q => q.1.risk_reduction).sum ∧
      demoSolution.total_priority_score =
        ((selectedPairs [demoResult] x).map fun q => q.1.priority_score).sum) :=
  ⟨Or.inl (by simp [PortfolioOptimizer.optimize, solveTriv, buildLP, demoSolution, Except.map]),
    outcome_aggregates_consistent solveTriv [demoResult] 5 (3 / 5) (2 / 5) demoSolution
      (Or.inl (by simp [PortfolioOptimizer.optimize, solveTriv, buildLP, demoSolution, Except.map]))⟩

theorem dot_replicate_zero (a : List ℚ) : dot a (List.replicate a.length 0) = 0 := by
  induction a with
  | nil => simp [dot]
  | cons q t ih => simpa [dot, List.replicate_succ] using ih

theorem groupTotal_replicate_zero (lp : LP) (g : String) :
    lp.groupTotal (List.replicate lp.costs.length 0) g = 0 := by
  apply List.sum_eq_zero
  intro v hv
  obtain ⟨p, hp, rfl⟩ := List.mem_map.mp hv
  have hpz := List.mem_filter.mp hp
  exact List.eq_of_mem_replicate (List.of_mem_zip hpz.1).2

theorem zeros_feasible (lp : LP) (hb : 0 ≤ lp.budget) :
    lp.feasible (List.replicate lp.costs.length 0) := by
  refine ⟨List.length_replicate _ _, ?_, ?_, ?_⟩
  · intro v hv
    rw [List.eq_of_mem_replicate hv]
    norm_num
  · rw [dot_replicate_zero]
    exact hb
  · intro g
    rw [groupTotal_replicate_zero]
    norm_num

/-- C4: every selector variant fails with the empty-input error on an
empty results list; and, for a solver that succeeds on every feasible
problem (minilp's documented behaviour on a feasible bounded LP), every
variant succeeds on every non-empty results list with non-negative costs
and non-negative budget — the all-zero (empty-selection) assignment being
a feasible point. -/
theorem selector_empty_input_and_success (solve : LP → Except String (List ℚ))
    (hcomplete : ∀ lp : LP, (∃ x, lp.feasible x) → ∃ x, solve lp = Except.ok x)
    (budget wr wp : ℚ) :
    (PortfolioOptimizer.optimize solve [] budget =
        Except.error "No alternatives to optimize" ∧
     PortfolioOptimizer.optimize_by_priority solve [] budget =
        Except.error "No alternatives to optimize" ∧
     PortfolioOptimizer.optimize_combined solve [] budget wr wp =
        Except.error "No alternatives to optimize") ∧
    ∀ results : List OptimizationResult, results ≠ [] →
      (∀ r ∈ results, 0 ≤ r.asset.cost_usd) → 0 ≤ budget →
      (∃ s, PortfolioOptimizer.optimize solve results budget = Except.ok s) ∧
      (∃ s, PortfolioOptimizer.optimize_by_priority solve results budget = Except.ok s) ∧
      (∃ s, PortfolioOptimizer.optimize_combined solve results budget wr wp =
        Except.ok s) := by
  constructor
  · exact ⟨rfl, rfl, rfl⟩
  · intro results hne hcost hb
    obtain ⟨hd, tl, rfl⟩ := List.exists_cons_of_ne_nil hne
    have hfe : ∀ coeff : OptimizationResult → ℚ,
        ∃ x, solve (buildLP (hd :: tl) budget coeff) = Except.ok x := by
      intro coeff
      exact hcomplete _ ⟨_, zeros_feasible (buildLP (hd :: tl) budget coeff) hb⟩
    obtain ⟨x1, hx1⟩ := hfe fun r => r.risk_reduction
    obtain ⟨x2, hx2⟩ := hfe fun r => r.priority_score
    obtain ⟨x3, hx3⟩ := hfe fun r =>
      wr * (r.risk_reduction / 1000000) + wp * r.priority_score
    refine ⟨⟨extract (hd :: tl) x1, ?_⟩, ⟨extract (hd :: tl) x2, ?_⟩,
      ⟨extract (hd :: tl) x3, ?_⟩⟩
    · simp [PortfolioOptimizer.optimize, hx1, Except.map]
    · simp [PortfolioOptimizer.optimize_by_priority, hx2, Except.map]
    · simp [PortfolioOptimizer.optimize_combined, hx3, Except.map]

/-- Witness for the empty-input and success theorem: the trivial solver at
budget 5 and combined weights 0.6 and 0.4. -/
theorem selector_empty_input_and_success_witness :
    (∀ lp : LP, (∃ x, lp.feasible x) → ∃ x, solveTriv lp = Except.ok x) ∧
    ((PortfolioOptimizer.optimize solveTriv [] 5 =
        Except.error "No alternatives to optimize" ∧
      PortfolioOptimizer.optimize_by_priority solveTriv [] 5 =
        Except.error "No alternatives to optimize" ∧
      PortfolioOptimizer.optimize_combined solveTriv [] 5 (3 / 5) (2 / 5) =
        Except.error "No alternatives to optimize") ∧
     ∀ results : List OptimizationResult, results ≠ [] →
      (∀ r ∈ results, 0 ≤ r.asset.cost_usd) → (0 : ℚ) ≤ 5 →
      (∃ s, PortfolioOptimizer.optimize solveTriv results 5 = Except.ok s) ∧
      (∃ s, PortfolioOptimizer.optimize_by_priority solveTriv results 5 = Except.ok s) ∧
      (∃ s, PortfolioOptimizer.optimize_combined solveTriv results 5 (3 / 5) (2 / 5) =
        Except.ok s)) :=
  ⟨fun _ _ => ⟨_, rfl⟩,
    selector_empty_input_and_success solveTriv (fun _ _ => ⟨_, rfl⟩) 5 (3 / 5) (2 / 5)⟩

theorem atMostOne (l : List (String × ℚ)) (hnn : ∀ p ∈ l, 0 ≤ p.2)
    (hg : ∀ g, ((l.filter fun p => p.1 == g).map fun p => p.2).sum ≤ 1) :
    (l.filter fun p => decide ((0.5 : ℚ) < p.2)).Pairwise fun p q => p.1 ≠ q.1 := by
  induction l with
  | nil => simp
  | cons p t ih =>
    have hp2 : 0 ≤ p.2 := hnn p (List.mem_cons_self _ _)
    have hnt : ∀ q ∈ t, 0 ≤ q.2 := fun q hq => hnn q (List.mem_cons_of_mem _ hq)
    have hgt : ∀ g, ((t.filter fun r => r.1 == g).map fun r => r.2).sum ≤ 1 := by
      intro g
      have hgg := hg g
      by_cases hpg : p.1 == g
      · simp only [List.filter_cons, hpg, if_pos, List.map_cons, List.sum_cons] at hgg
        linarith
      · simpa [List.filter_cons, hpg] using hgg
    rw [List.filter_cons]
    by_cases hsel : (0.5 : ℚ) < p.2
    · rw [if_pos (decide_eq_true hsel)]
      refine List.Pairwise.cons ?_ (ih hnt hgt)
      intro q hq heq
      have hqt : q ∈ t := List.mem_of_mem_filter hq
      have hqsel : (0.5 : ℚ) < q.2 := by
        have := List.of_mem_filter hq
        simpa using this
      have hq2 : q ∈ t.filter fun r => r.1 == p.1 :=
        List.mem_filter.mpr ⟨hqt, by simp [heq.symm]⟩
      have hle : q.2 ≤ ((t.filter fun r => r.1 == p.1).map fun r => r.2).sum := by
        apply List.single_le_sum
        · intro v hv
          obtain ⟨r, hr, rfl⟩ := List.mem_map.mp hv
          exact hnt r (List.mem_of_mem_filter hr)
        · exact List.mem_map_of_mem _ hq2
      have htot : p.2 + ((t.filter fun r => r.1 == p.1).map fun r => r.2).sum ≤ 1 := by
        have := hg p.1
        simpa [List.filter_cons] using this
      linarith
    · rw [if_neg (by simpa using hsel)]
      exact ih hnt hgt

theorem groups_zip_eq (results : List OptimizationResult) (x : List ℚ)
    (b : ℚ) (coeff : OptimizationResult → ℚ) :
    (buildLP results b coeff).groups.zip x =
      (results.zip x).map fun p => (p.1.asset.asset_id, p.2) := by
  simp only [buildLP]
  induction results generalizing x with
  | nil => simp
  | cons r t ih =>
    cases x with
    | nil => simp
    | cons v xs => simp [ih]

theorem feasible_selected_pairwise {results : List OptimizationResult} {budget : ℚ}
    {coeff : OptimizationResult → ℚ} {x : List ℚ}
    (hf : (buildLP results budget coeff).feasible x) :
    (selectedPairs results x).Pairwise
      fun p q => p.1.asset.asset_id ≠ q.1.asset.asset_id := by
  obtain ⟨-, hbnd, -, hgrp⟩ := hf
  have hnn : ∀ p ∈ (results.zip x).map fun p => (p.1.asset.asset_id, p.2), 0 ≤ p.2 := by
    intro p hp
    obtain ⟨q, hq, rfl⟩ := List.mem_map.mp hp
    exact (hbnd _ (List.of_mem_zip hq).2).1
  have hgg : ∀ g,
      ((((results.zip x).map fun p => (p.1.asset.asset_id, p.2)).filter
        fun p => p.1 == g).map fun p => p.2).sum ≤ 1 := by
    intro g
    have hh := hgrp g
    rw [LP.groupTotal, groups_zip_eq] at hh
    exact hh
  have hpair := atMostOne _ hnn hgg
  have hcomm : (((results.zip x).map fun p => (p.1.asset.asset_id, p.2)).filter
        fun p => decide ((0.5 : ℚ) < p.2)) =
      ((results.zip x).filter fun p => decide ((0.5 : ℚ) < p.2)).map
        fun p => (p.1.asset.asset_id, p.2) := by
    rw [List.filter_map]
    rfl
  rw [hcomm] at hpair
  rw [selectedPairs]
  have hp2 := List.pairwise_map.mp hpair
  exact hp2

/-- C2: for a solver whose successful answers are feasible (minilp's
documented behaviour), every successful outcome of every selector variant
selects at most one alternative per asset: the selected pairs are pairwise
distinct in `asset_id`.  Thresholding at 0.5 cannot pick two alternatives
of one asset because their fractional weights would sum above the group
constraint's bound 1. -/
theorem selector_at_most_one_per_asset (solve : LP → Except String (List ℚ))
    (hok : ∀ lp x, solve lp = Except.ok x → lp.feasible x)
    (results : List OptimizationResult) (budget wr wp : ℚ) (s : OptimizationSolution)
    (h : PortfolioOptimizer.optimize solve results budget = Except.ok s ∨
         PortfolioOptimizer.optimize_by_priority solve results budget = Except.ok s ∨
         PortfolioOptimizer.optimize_combined solve results budget wr wp = Except.ok s) :
    ∃ x, s = extract results x ∧
      s.selected_alternatives = ((selectedPairs results x).map fun q => fmtSelected q.1) ∧
      (selectedPairs results x).Pairwise
        fun p q => p.1.asset.asset_id ≠ q.1.asset.asset_id := by
  have hx : ∃ x, solve (buildLP results budget fun r => r.risk_reduction) = Except.ok x ∧
        s = extract results x ∨
      solve (buildLP results budget fun r => r.priority_score) = Except.ok x ∧
        s = extract results x ∨
      solve (buildLP results budget fun r =>
          wr * (r.risk_reduction / 1000000) + wp * r.priority_score) = Except.ok x ∧
        s = extract results x := by
    rcases h with h | h | h
    · obtain ⟨x, hx1, hx2⟩ := variant_ok_inv h
      exact ⟨x, Or.inl ⟨hx1, hx2⟩⟩
    · obtain ⟨x, hx1, hx2⟩ := variant_ok_inv h
      exact ⟨x, Or.inr (Or.inl ⟨hx1, hx2⟩)⟩
    · obtain ⟨x, hx1, hx2⟩ := variant_ok_inv h
      exact ⟨x, Or.inr (Or.inr ⟨hx1, hx2⟩)⟩
  obtain ⟨x, hcase⟩ := hx
  have hfeas : (∃ c : OptimizationResult → ℚ,
      (buildLP results budget c).feasible x) ∧ s = extract results x := by
    rcases hcase with ⟨h1, h2⟩ | ⟨h1, h2⟩ | ⟨h1, h2⟩
    · exact ⟨⟨_, hok _ _ h1⟩, h2⟩
    · exact ⟨⟨_, hok _ _ h1⟩, h2⟩
    · exact ⟨⟨_, hok _ _ h1⟩, h2⟩
  obtain ⟨⟨c, hc⟩, rfl⟩ := hfeas
  exact ⟨x, rfl, (extract_fields results x).1, feasible_selected_pairwise hc⟩

theorem solveZeroIf_feasible (lp : LP) (x : List ℚ)
    (h : solveZeroIf lp = Except.ok x) : lp.feasible x := by
  unfold solveZeroIf at h
  by_cases hb : 0 ≤ lp.budget
  · rw [if_pos hb] at h
    cases h
    exact zeros_feasible lp hb
  · rw [if_neg hb] at h
    cases h

/-- Witness for the exclusivity theorem: the zero-assignment solver on the
singleton demo batch at budget 5, risk-reduction variant. -/
theorem selector_at_most_one_per_asset_witness :
    (∀ lp x, solveZeroIf lp = Except.ok x → lp.feasible x) ∧
    (PortfolioOptimizer.optimize solveZeroIf [demoResult] 5 = Except.ok demoSolution ∨
     PortfolioOptimizer.optimize_by_priority solveZeroIf [demoResult] 5 =
       Except.ok demoSolution ∨
     PortfolioOptimizer.optimize_combined solveZeroIf [demoResult] 5 (3 / 5) (2 / 5) =
       Except.ok demoSolution) ∧
    (∃ x, demoSolution = extract [demoResult] x ∧
      demoSolution.selected_alternatives =
        ((selectedPairs [demoResult] x).map fun q => fmtSelected q.1) ∧
      (selectedPairs [demoResult] x).Pairwise
        fun p q => p.1.asset.asset_id ≠ q.1.asset.asset_id) :=
  ⟨solveZeroIf_feasible,
   Or.inl (by norm_num [PortfolioOptimizer.optimize, solveZeroIf, buildLP,
     demoSolution, Except.map]),
   selector_at_most_one_per_asset solveZeroIf solveZeroIf_feasible [demoResult] 5
     (3 / 5) (2 / 5) demoSolution
     (Or.inl (by norm_num [PortfolioOptimizer.optimize, solveZeroIf, buildLP,
       demoSolution, Except.map]))⟩

theorem lpC1_optimal_x0 : lpC1.optimal [3 / 5] := by
  constructor
  · refine ⟨by simp [lpC1, buildLP], ?_, ?_, ?_⟩
    · intro v hv
      simp at hv
      subst hv
      norm_num
    · simp [lpC1, buildLP, cxResult, dot]
      norm_num
    · intro g
      by_cases hg : ("ASSET_C" == g)
      · simp [lpC1, buildLP, cxResult, LP.groupTotal, hg]
        norm_num
      · simp [lpC1, buildLP, cxResult, LP.groupTotal, hg]
  · intro y hy
    obtain ⟨hlen, hbnd, hcost, -⟩ := hy
    obtain ⟨a, rfl⟩ := List.length_eq_one.mp (by simpa [lpC1, buildLP] using hlen)
    have hca : 10 * a ≤ 6 := by
      have := hcost
      simp [dot, lpC1, buildLP, cxResult] at this
      linarith
    simp [dot, lpC1, buildLP, cxResult]
    linarith

/-- C1 fails on the code: for the single alternative `cxResult` (cost 10,
risk reduction 100) at budget 6, the LP relaxation's unique optimum
assigns fractional weight 0.6, the 0.5-threshold selects the alternative,
and the outcome's `total_cost` is 10, exceeding the budget 6 — so any
solver that returns optimal solutions of this LP (as minilp does) makes
the risk-reduction selector report a selection whose cost violates the
budget. -/
theorem optimizer_exceeds_budget_on_fractional_optimum :
    (∃ x, lpC1.optimal x) ∧
    (∀ (solve : LP → Except String (List ℚ)) (s : OptimizationSolution),
      (∀ x, solve lpC1 = Except.ok x → lpC1.optimal x) →
      PortfolioOptimizer.optimize solve [cxResult] 6 = Except.ok s →
      s.total_cost = 10 ∧ ¬ s.total_cost ≤ 6) := by
  refine ⟨⟨[3 / 5], lpC1_optimal_x0⟩, ?_⟩
  intro solve s hsol hok
  obtain ⟨x, hx, rfl⟩ := variant_ok_inv hok
  have hxopt := hsol x hx
  obtain ⟨⟨hlen, hbnd, hcost, -⟩, hbest⟩ := hxopt
  obtain ⟨a, rfl⟩ := List.length_eq_one.mp (by simpa [lpC1, buildLP] using hlen)
  have h10a : 10 * a ≤ 6 := by
    have := hcost
    simp [dot, lpC1, buildLP, cxResult] at this
    linarith
  have hbb := hbest [3 / 5] lpC1_optimal_x0.1
  have ha : 3 / 5 ≤ a := by
    simp [dot, lpC1, buildLP, cxResult] at hbb
    linarith
  have hsel : (0.5 : ℚ) < a := by linarith
  constructor
  · simp [extract, selectStep, cxResult, hsel]
  · simp [extract, selectStep, cxResult, hsel]
    norm_num

end Capalloc
